import Mathlib

/-!
Verification development for the Smoothed-Particle-Hydrodynamics 2D repository
(Kerber31/Smoothed-Particle-Hydrodynamics).

The C++ sources are shallowly embedded: `double` is idealized as `ℚ` (exact
rational arithmetic standing in for IEEE doubles; rounding of binary floating
point is outside the model), `Eigen::Vector2d` as `ℚ × ℚ`, `std::vector<T>` as
`List T`, `std::string` as `List Char`.  Square roots (`Eigen .norm()` /
`sqrt`) do not exist in `ℚ`; wherever the code takes a square root the
embedding either records the squared value (grid neighbor distances) or is
parametrized by an abstract map `sqrtA : ℚ → ℚ` standing for the `sqrt`
routine; statements never depend on properties of `sqrtA`.
-/

/-- 2D vector, the embedding of `Eigen::Vector2d`. -/
abbrev Q2 : Type := ℚ × ℚ

/-- Dot product of two 2D vectors (`Eigen .dot()`). -/
def dot2 (a b : Q2) : ℚ := a.1 * b.1 + a.2 * b.2

/-- Squared Euclidean norm (`Eigen .squaredNorm()`). -/
def sqNorm (a : Q2) : ℚ := a.1 * a.1 + a.2 * a.2

/-- Truncation of a real quantity to `int`, as a C++ `(int)` cast does
(rounds toward zero). -/
def qtrunc (q : ℚ) : ℤ := if q < 0 then -(Int.floor (-q)) else Int.floor q

/-! ## Constants (include/Constants.h) -/

/-- The value of the C `M_PI` macro as the exact rational value of the
`double` constant `3.14159265358979323846…` rounds to. -/
def M_PI : ℚ := 884279719003555 / 281474976710656

/-- `G2D`: gravity vector `(0.0, -9.8)`. -/
def G2D : Q2 := (0, -49/5)

/-- `REST_DENSITY = 300.0`. -/
def REST_DENSITY : ℚ := 300

/-- `ELASTIC_REST_DENSITY = 45.0`. -/
def ELASTIC_REST_DENSITY : ℚ := 45

/-- `GAS_CONSTANT = 2000.0`. -/
def GAS_CONSTANT : ℚ := 2000

/-- `EPS = 0.00001f` (idealized to the decimal value of the literal). -/
def EPS : ℚ := 1/100000

/-! ## Smoothing kernels (src/SphKernels.cpp) -/

/-- `SphPoly6Kernel::operator()(distanceSquaredDifference)`:
`(4.f / (M_PI * pow(kernelRadius, 8.0))) * pow(distanceSquaredDifference, 3.0)`. -/
def SphPoly6Kernel (kernelRadius distanceSquaredDifference : ℚ) : ℚ :=
  (4 / (M_PI * kernelRadius ^ 8)) * distanceSquaredDifference ^ 3

/-- `SphSpikyKernel::gradientAt`:
`(-10.0 / (M_PI * pow(kernelRadius, 5.0))) * pow(distanceSquaredDifference, 3.0)`. -/
def SphSpikyKernel.gradientAt (kernelRadius distanceSquaredDifference : ℚ) : ℚ :=
  (-10 / (M_PI * kernelRadius ^ 5)) * distanceSquaredDifference ^ 3

/-- `SphViscosityKernel::laplacianAt`:
`(40.0 / (M_PI * pow(kernelRadius, 5.0))) * distanceSquaredDifference`. -/
def SphViscosityKernel.laplacianAt (kernelRadius distanceSquaredDifference : ℚ) : ℚ :=
  (40 / (M_PI * kernelRadius ^ 5)) * distanceSquaredDifference

/-! ## List helpers

The per-particle loops `for (i = 0; i < numberOfParticles; i++) arr[i] = …`
are embedded with `updIdx`: map `f i` over the entries of index `i < N`,
leaving any others unchanged. -/

/-- Apply `f` at each index, starting the index count at `start`. -/
def updAllFrom (f : ℕ → α → α) : ℕ → List α → List α
  | _, [] => []
  | start, x :: xs => f start x :: updAllFrom f (start + 1) xs

/-- Update entry `i` to `f i` for every index `i < N` of the list. -/
def updIdx (N : ℕ) (f : ℕ → α → α) (l : List α) : List α :=
  updAllFrom (fun i a => if i < N then f i a else a) 0 l

/-! ## Persistence: CsvWriter (include/CsvWriter.h), the solver's
`writeToFile` (src/SphSolver2D.cpp) and the CSV reader (include/CsvReader.h).
Strings are embedded as `List Char`. -/

/-- Split a character list at every occurrence of `c` (the reader's
field/row decomposition; mirrors `CSVRow::readNextRow` index arithmetic and
`split(s, delim)`). -/
def splitOnC (c : Char) : List Char → List (List Char)
  | [] => [[]]
  | x :: xs =>
    match splitOnC c xs with
    | [] => [[x]]
    | g :: gs => if x = c then [] :: g :: gs else (x :: g) :: gs

/-- Digits of `n` in base 10, most significant first (`fuel` bounds the
recursion; 15 digits is enough for every value the model produces). -/
def natDigitsAux : ℕ → ℕ → List Char
  | 0, _ => []
  | fuel + 1, n =>
    if n = 0 then [] else natDigitsAux fuel (n / 10) ++ [Char.ofNat (48 + n % 10)]

/-- Decimal string of a natural number. -/
def natToChars (n : ℕ) : List Char :=
  if n = 0 then ['0'] else natDigitsAux 15 n

/-- A fraction `< 10^10` printed as exactly 10 digits with leading zeros. -/
def pad10 (n : ℕ) : List Char :=
  let d := natToChars n
  List.replicate (10 - d.length) '0' ++ d

/-- `std::ostringstream` with `std::fixed` and `setprecision(10)` applied to a
double: sign, integer part, `'.'`, then exactly ten fractional digits.  The
value printed is the decimal rounding of the exact value to 10 fractional
digits (ties are taken away from zero in this idealized model). -/
def fixed10 (q : ℚ) : List Char :=
  let n := (Int.floor (|q| * 10 ^ 10 + 1/2)).toNat
  (if q < 0 then ['-'] else []) ++
    natToChars (n / 10 ^ 10) ++ '.' :: pad10 (n % 10 ^ 10)

/-- One particle's record: `x_str + " " + y_str` (SphSolver2D::writeToFile). -/
def posFieldString (p : Q2) : List Char :=
  fixed10 p.1 ++ ' ' :: fixed10 p.2

/-- Double every `'"'` character (the escaping loop in
`CsvWriter::add(std::string)`). -/
def escQuotes : List Char → List Char
  | [] => []
  | c :: r => if c = '"' then '"' :: '"' :: escQuotes r else c :: escQuotes r

/-- `CsvWriter::add(std::string)` quoting: escape quotation marks, or quote
the field when it contains the separator `';'`. -/
def csvEscape (s : List Char) : List Char :=
  if s.contains '"' then '"' :: escQuotes s ++ ['"']
  else if s.contains ';' then '"' :: s ++ ['"']
  else s

/-- The mutable state of a `CsvWriter` used through the solver's
`writeToFile` path: the stream contents `ss` and the field counter
`valueCount` (`columnNum` stays `-1` and `newRow` is never called on this
path, so they are omitted). -/
structure CsvWriterSt where
  ss : List Char
  valueCount : ℕ

/-- `CsvWriter::add<T>` for a string field on the solver path: prepend the
separator when at least one field was already added, append the escaped
field, bump `valueCount`. -/
def csvAddString (w : CsvWriterSt) (s : List Char) : CsvWriterSt :=
  { ss := w.ss ++ (if 0 < w.valueCount then [';'] else []) ++ csvEscape s,
    valueCount := w.valueCount + 1 }

/-- `CsvWriter::writeToFile(filename, append=true)` acting on the file
contents: when the file is nonempty and does not end in a newline, append a
newline and the content stripped of its FIRST and LAST characters
(`s.substr(1, s.size() - 2)`); otherwise append the content unchanged. -/
def csvWriteToFileAppend (file content : List Char) : List Char :=
  if file ≠ [] ∧ file.getLast? ≠ some '\n' then
    file ++ '\n' :: ((content.drop 1).dropLast)
  else
    file ++ content

/-- `SphSolver2D::writeToFile()` for one frame: add one field per particle,
flush to the file in append mode, then `resetContent()` (which clears the
stream but leaves `valueCount` untouched). -/
def writeFrame (st : List Char × CsvWriterSt) (ps : List Q2) : List Char × CsvWriterSt :=
  let w := ps.foldl (fun w p => csvAddString w (posFieldString p)) st.2
  (csvWriteToFileAppend st.1 w.ss, { ss := [], valueCount := w.valueCount })

/-- Persist a sequence of frames of positions through one `CsvWriter`
starting from an erased file (`eraseFileContents` runs at construction). -/
def writeFrames (frames : List (List Q2)) : List Char :=
  (frames.foldl writeFrame ([], ⟨[], 0⟩)).1

/-- Accumulate the value of a digit string (the digit loop of `atof`). -/
def parseDigits (l : List Char) : ℕ :=
  l.foldl (fun a c => 10 * a + (c.toNat - 48)) 0

/-- Magnitude part of `atof`: integer digits, then an optional fractional
part after `'.'` (the persisted fields never carry exponents). -/
def atofMag (s : List Char) : ℚ :=
  let ip := s.takeWhile Char.isDigit
  let rest := s.dropWhile Char.isDigit
  let fp := if rest.headD ' ' = '.' then rest.tail.takeWhile Char.isDigit else []
  (parseDigits ip : ℚ) + (parseDigits fp : ℚ) / 10 ^ fp.length

/-- `atof` on a field: skip spaces, optional sign character, magnitude. -/
def atofQ (s : List Char) : ℚ :=
  let s1 := s.dropWhile (fun c => c = ' ')
  if s1.headD ' ' = '-' then -(atofMag s1.tail)
  else if s1.headD ' ' = '+' then atofMag s1.tail
  else atofMag s1

/-- `get2DVector(str)`: split on `' '` and parse the two coordinates. -/
def get2DVector (s : List Char) : Q2 :=
  let strVec := splitOnC ' ' s
  (atofQ (strVec.getD 0 []), atofQ (strVec.getD 1 []))

/-- Read a whole persisted file back: one row per line (`CSVRange`), fields
split on `';'` (`CSVRow`), each field parsed with `get2DVector`. -/
def readFrames (file : List Char) : List (List Q2) :=
  (splitOnC '\n' file).map fun line => (splitOnC ';' line).map get2DVector

/-! ## Spatial neighbor grid (src/GridNeighborhood2D.cpp)

The grid state after `setGridResolution`.  `build` is embedded as the
function from a particle index to its recorded neighbor list.  The C++
`Neighborhood` stores, for each kept candidate, the pair
`(index, r)` with `r = sqrt(r2)`; since `sqrt` leaves `ℚ`, the embedding
records `(index, r2)` — the squared distance, which carries the same
information — and consumers apply an abstract square root `sqrtA` to the
second component. -/

/-- `Neighborhood::MAX_NEIGHBORS = 64`. -/
def Neighborhood.MAX_NEIGHBORS : ℕ := 64

/-- Grid parameters (`_width`, `_height`, `_cellSize`). -/
structure GridNeighborhood2D where
  width : ℤ
  height : ℤ
  cellSize : ℚ

/-- `GridNeighborhood2D::setGridResolution(width, height, kernelRadius)`:
`_cellSize = kernelRadius; _width = (int) width / _cellSize;
_height = (int) height / _cellSize;`. -/
def GridNeighborhood2D.setGridResolution (width height : ℤ) (kernelRadius : ℚ) :
    GridNeighborhood2D :=
  { width := qtrunc ((width : ℚ) / kernelRadius),
    height := qtrunc ((height : ℚ) / kernelRadius),
    cellSize := kernelRadius }

/-- Clamped cell coordinates of a point:
`xind = std::max(1, std::min(_width - 2, (int)(p(0) / _cellSize)))` and the
analogous `yind`. -/
def GridNeighborhood2D.cellIndex (g : GridNeighborhood2D) (p : Q2) : ℤ × ℤ :=
  (max 1 (min (g.width - 2) (qtrunc (p.1 / g.cellSize))),
   max 1 (min (g.height - 2) (qtrunc (p.2 / g.cellSize))))

/-- First loop of `build`: prepend each particle index to the linked list of
its (clamped) cell; the bucket map sends a linear cell index
`xind + yind * _width` to the list of particle indices, most recently
inserted first. -/
def GridNeighborhood2D.insertPoints (g : GridNeighborhood2D) :
    ℕ → List Q2 → (ℤ → List ℕ) → (ℤ → List ℕ)
  | _, [], grid => grid
  | i, p :: rest, grid =>
    GridNeighborhood2D.insertPoints g (i + 1) rest
      (fun k =>
        if k = (g.cellIndex p).1 + (g.cellIndex p).2 * g.width then i :: grid k
        else grid k)

/-- The 3×3 cell block scan order of `build`: outer loop over
`ii ∈ {xind-1, xind, xind+1}`, inner loop over the row offsets
`jj ∈ {yw - _width, yw, yw + _width}` where `yw = yind * _width`,
concatenating the bucket `_grid[ii + jj]` contents in traversal order. -/
def GridNeighborhood2D.cellScan (g : GridNeighborhood2D) (grid : ℤ → List ℕ)
    (ci : ℤ × ℤ) : List ℕ :=
  let yw := ci.2 * g.width
  grid (ci.1 - 1 + (yw - g.width)) ++ grid (ci.1 - 1 + yw) ++
    grid (ci.1 - 1 + (yw + g.width)) ++
    grid (ci.1 + (yw - g.width)) ++ grid (ci.1 + yw) ++
    grid (ci.1 + (yw + g.width)) ++
    grid (ci.1 + 1 + (yw - g.width)) ++ grid (ci.1 + 1 + yw) ++
    grid (ci.1 + 1 + (yw + g.width))

/-- Second loop of `build`, for particle `i`: walk the 3×3 cell block of
`i`'s clamped cell, keep every candidate `j` whose squared distance `r2`
satisfies neither `r2 < EPS` nor `r2 > _cellSize * _cellSize`, and record the
first `MAX_NEIGHBORS` of them (the code appends while
`numNeighbors < MAX_NEIGHBORS` and silently skips the rest).  Each recorded
entry is `(j, r2)`; the code stores `(j, sqrt r2)`. -/
def GridNeighborhood2D.build (g : GridNeighborhood2D) (points : List Q2) (i : ℕ) :
    List (ℕ × ℚ) :=
  let grid := GridNeighborhood2D.insertPoints g 0 points (fun _ => [])
  let pi := points.getD i (0, 0)
  ((GridNeighborhood2D.cellScan g grid (g.cellIndex pi)).filterMap fun j =>
      let r2 := sqNorm (points.getD j (0, 0) - pi)
      if r2 < EPS ∨ r2 > g.cellSize * g.cellSize then none
      else some (j, r2)).take Neighborhood.MAX_NEIGHBORS

/-! ## Particle system data (include/SphParticleSystemData2D.h,
src/SphParticleSystemData2D.cpp, src/VSphParticleSystemData2D.cpp)

One structure holds all per-particle arrays and tunables of the base class
(the viscoelastic subclass adds no fields — the extra arrays already live in
the base class).  The neighborhood member is embedded by its observable
behavior: the list of `(index, distance)` pairs `forEachNearbyPoint` feeds
to its callback for each origin index. -/

structure SphParticleSystemData2D where
  positions : List Q2
  velocities : List Q2
  forces : List Q2
  densities : List ℚ
  pressures : List ℚ
  lastPositions : List Q2
  projectedPositions : List Q2
  densityVariations : List ℚ
  pressureVariations : List ℚ
  numberOfParticles : ℕ
  kernelFactor : ℚ
  kernelFactorNorm : ℚ
  stiffness : ℚ
  stiffnessAtProximity : ℚ
  linearViscosity : ℚ
  quadraticViscosity : ℚ
  surfaceTension : ℚ
  kernelRadius : ℚ
  kernelRadiusSquared : ℚ
  mass : ℚ
  viscosityConstant : ℚ
  particleRadius : ℚ
  neighborhood : ℕ → List (ℕ × ℚ)

/-- The base-class constructor: empty arrays and the default member
initializers of the header. -/
def SphParticleSystemData2D.init : SphParticleSystemData2D :=
  { positions := [], velocities := [], forces := [], densities := [],
    pressures := [], lastPositions := [], projectedPositions := [],
    densityVariations := [], pressureVariations := [], numberOfParticles := 0,
    kernelFactor := 0, kernelFactorNorm := 0, stiffness := 8/100,
    stiffnessAtProximity := 1/10, linearViscosity := 1/4,
    quadraticViscosity := 1/2, surfaceTension := 1/10000, kernelRadius := 16,
    kernelRadiusSquared := 16 * 16, mass := 5/2, viscosityConstant := 200,
    particleRadius := 16, neighborhood := fun _ => [] }

/-- `VSphParticleSystemData2D::VSphParticleSystemData2D()`: overrides
`_particleRadius = 0.03`, `_kernelRadius = 6.0 * _particleRadius`,
`_kernelFactor = 20 / (2·π·h²)`, `_kernelFactorNorm = 30 / (2·π·h²)`,
`_mass = 1.0`. -/
def VSphParticleSystemData2D.init : SphParticleSystemData2D :=
  { SphParticleSystemData2D.init with
    particleRadius := 3/100,
    kernelRadius := 6 * (3/100),
    kernelFactor := 20 / (2 * M_PI * (6 * (3/100)) * (6 * (3/100))),
    kernelFactorNorm := 30 / (2 * M_PI * (6 * (3/100)) * (6 * (3/100))),
    mass := 1 }

/-- `SphParticleSystemData2D::addParticle(positon)`: push back the position
and zero-initialized velocity, force, density, pressure; bump the count. -/
def SphParticleSystemData2D.addParticle (d : SphParticleSystemData2D) (positon : Q2) :
    SphParticleSystemData2D :=
  { d with
    positions := d.positions ++ [positon],
    velocities := d.velocities ++ [(0, 0)],
    forces := d.forces ++ [(0, 0)],
    densities := d.densities ++ [0],
    pressures := d.pressures ++ [0],
    numberOfParticles := d.numberOfParticles + 1 }

/-- `VSphParticleSystemData2D::addParticle(positon)`: the base-class
`addParticle`, then push back `(0.0, 0.0)` on `_projectedPositions`, `0.0` on
both variation arrays, and the position on `_lastPositions`. -/
def VSphParticleSystemData2D.addParticle (d : SphParticleSystemData2D) (positon : Q2) :
    SphParticleSystemData2D :=
  let d' := SphParticleSystemData2D.addParticle d positon
  { d' with
    projectedPositions := d'.projectedPositions ++ [(0, 0)],
    densityVariations := d'.densityVariations ++ [0],
    pressureVariations := d'.pressureVariations ++ [0],
    lastPositions := d'.lastPositions ++ [positon] }

/-- The density accumulated for particle `i` by
`SphParticleSystemData2D::computeDensityPressure()`: a full pass over all
particles `j`, adding `mass * poly6(kernelRadiusSquared - r²)` whenever
`r² < kernelRadiusSquared`. -/
def SphParticleSystemData2D.densityAt (d : SphParticleSystemData2D) (i : ℕ) : ℚ :=
  (List.range d.numberOfParticles).foldl
    (fun acc j =>
      if sqNorm (d.positions.getD j (0, 0) - d.positions.getD i (0, 0)) <
          d.kernelRadiusSquared then
        acc + d.mass * SphPoly6Kernel d.kernelRadius
          (d.kernelRadiusSquared -
            sqNorm (d.positions.getD j (0, 0) - d.positions.getD i (0, 0)))
      else acc) 0

/-- `SphParticleSystemData2D::computeDensityPressure()`: for each particle
`i`, recompute the density by the all-pairs pass and set
`pressures[i] = GAS_CONSTANT * (densities[i] - REST_DENSITY)`. -/
def SphParticleSystemData2D.computeDensityPressure (d : SphParticleSystemData2D) :
    SphParticleSystemData2D :=
  { d with
    densities := updIdx d.numberOfParticles (fun i _ => d.densityAt i) d.densities,
    pressures := updIdx d.numberOfParticles
      (fun i _ => GAS_CONSTANT * (d.densityAt i - REST_DENSITY)) d.pressures }

/-- The pair (density, near-density) accumulated for particle `i` by
`VSphParticleSystemData2D::computeDensityPressure()`: both start at `0`; for
each recorded neighbor at distance `r`, with `a = 1 - r / kernelRadius`, the
density gains `mass·a·a·a·kernelFactor` and the near-density gains
`mass·a·a·a·a·kernelFactorNorm`. -/
def VSphParticleSystemData2D.densityPairAt (d : SphParticleSystemData2D) (i : ℕ) :
    ℚ × ℚ :=
  (d.neighborhood i).foldl
    (fun acc jr =>
      (acc.1 + d.mass * (1 - jr.2 / d.kernelRadius) * (1 - jr.2 / d.kernelRadius) *
          (1 - jr.2 / d.kernelRadius) * d.kernelFactor,
       acc.2 + d.mass * (1 - jr.2 / d.kernelRadius) * (1 - jr.2 / d.kernelRadius) *
          (1 - jr.2 / d.kernelRadius) * (1 - jr.2 / d.kernelRadius) *
          d.kernelFactorNorm)) (0, 0)

/-- `VSphParticleSystemData2D::computeDensityPressure()`: for each particle
`i`, recompute density and near-density from the recorded neighborhood, then
`pressures[i] = stiffness * (densities[i] - mass * ELASTIC_REST_DENSITY)` and
`pressureVariations[i] = stiffnessAtProximity * densityVariations[i]`. -/
def VSphParticleSystemData2D.computeDensityPressure (d : SphParticleSystemData2D) :
    SphParticleSystemData2D :=
  { d with
    densities := updIdx d.numberOfParticles
      (fun i _ => (VSphParticleSystemData2D.densityPairAt d i).1) d.densities,
    densityVariations := updIdx d.numberOfParticles
      (fun i _ => (VSphParticleSystemData2D.densityPairAt d i).2) d.densityVariations,
    pressures := updIdx d.numberOfParticles
      (fun i _ => d.stiffness *
        ((VSphParticleSystemData2D.densityPairAt d i).1 - d.mass * ELASTIC_REST_DENSITY))
      d.pressures,
    pressureVariations := updIdx d.numberOfParticles
      (fun i _ => d.stiffnessAtProximity * (VSphParticleSystemData2D.densityPairAt d i).2)
      d.pressureVariations }

/-! ## Solvers (src/SphSolver2D.cpp, src/VSphSolver2D.cpp)

One state carries the base-solver members plus the members the viscoelastic
subclass adds (`_solverSteps`, `_timeStepSizeInSecondsSquared`) and the grid
resolution of the neighborhood object.  The persisted file contents and the
`CsvWriter` are part of the state so persistence is observable.  A boundary
is the triple `(b0, b1, b2)` of an `Eigen::Vector3d`: normal `(b0, b1)`
and offset `b2`. -/

structure SphSolver2D where
  data : SphParticleSystemData2D
  boundaries : List (ℚ × ℚ × ℚ)
  timeStepSizeInSeconds : ℚ
  boundaryDumping : ℚ
  fileName : List Char
  csv : CsvWriterSt
  file : List Char
  solverSteps : ℕ
  timeStepSizeInSecondsSquared : ℚ
  grid : GridNeighborhood2D

/-- Signed distance of a position to a boundary plane, as `enforceBoundary`
computes it: `positions[i](0) * b(0) + positions[i](1) * b(1) - b(2)`. -/
def signedDistance (p : Q2) (b : ℚ × ℚ × ℚ) : ℚ :=
  p.1 * b.1 + p.2 * b.2.1 - b.2.2

/-- `SphSolver2D::enforceBoundary()`: for each particle and each boundary in
order, clamp the signed distance to `d = max(0, d)`; when `d` is below the
particle radius, add `(particleRadius - d) * normal / dt` to the velocity and
scale the velocity by `_boundaryDumping`.  Positions are not touched. -/
def SphSolver2D.enforceBoundary (s : SphSolver2D) : SphSolver2D :=
  { s with data := { s.data with
      velocities := updIdx s.data.numberOfParticles
        (fun i v =>
          s.boundaries.foldl
            (fun v b =>
              let d := max 0 (signedDistance (s.data.positions.getD i (0, 0)) b)
              if d < s.data.particleRadius then
                s.boundaryDumping •
                  (v + ((s.data.particleRadius - d) / s.timeStepSizeInSeconds) •
                    (b.1, b.2.1))
              else v) v)
        s.data.velocities } }

/-- `SphSolver2D::integrate()`: per particle,
`velocities[i] += (forces[i] / densities[i]) * dt` and then
`positions[i] += velocities[i] * dt` with the freshly updated velocity. -/
def SphSolver2D.integrate (s : SphSolver2D) : SphSolver2D :=
  { s with data := { s.data with
      velocities := updIdx s.data.numberOfParticles
        (fun i v =>
          v + s.timeStepSizeInSeconds •
            ((s.data.densities.getD i 0)⁻¹ • s.data.forces.getD i (0, 0)))
        s.data.velocities,
      positions := updIdx s.data.numberOfParticles
        (fun i p =>
          p + s.timeStepSizeInSeconds •
            (s.data.velocities.getD i (0, 0) + s.timeStepSizeInSeconds •
              ((s.data.densities.getD i 0)⁻¹ • s.data.forces.getD i (0, 0))))
        s.data.positions } }

/-- The force `SphSolver2D::computeForces()` assigns to particle `i`:
pressure and viscosity contributions accumulated over all other particles
within the kernel radius, plus gravity `G2D * mass / densities[i]`.
`sqrtA` abstracts `Eigen`'s square root: `distance = sqrtA (squaredNorm)`,
and `normalized()` divides by the same quantity. -/
def SphSolver2D.forceAt (sqrtA : ℚ → ℚ) (s : SphSolver2D) (i : ℕ) : Q2 :=
  let pos := fun j => s.data.positions.getD j (0, 0)
  let fpv := (List.range s.data.numberOfParticles).foldl
    (fun (acc : Q2 × Q2) j =>
      if j = i then acc
      else
        let rv := pos j - pos i
        let distance := sqrtA (sqNorm rv)
        if distance < s.data.kernelRadius then
          (acc.1 +
            (-(s.data.mass * (s.data.pressures.getD i 0 + s.data.pressures.getD j 0) /
                (2 * s.data.densities.getD j 0) *
                SphSpikyKernel.gradientAt s.data.kernelRadius
                  (s.data.kernelRadius - distance))) • ((distance)⁻¹ • rv),
           acc.2 +
            (s.data.viscosityConstant * s.data.mass / s.data.densities.getD j 0 *
              SphViscosityKernel.laplacianAt s.data.kernelRadius
                (s.data.kernelRadius - distance)) •
              (s.data.velocities.getD j (0, 0) - s.data.velocities.getD i (0, 0)))
        else acc) ((0, 0), (0, 0))
  fpv.1 + fpv.2 + (s.data.mass / s.data.densities.getD i 0) • G2D

/-- `SphSolver2D::computeForces()`: assign `forceAt` to every particle. -/
def SphSolver2D.computeForces (sqrtA : ℚ → ℚ) (s : SphSolver2D) : SphSolver2D :=
  { s with data := { s.data with
      forces := updIdx s.data.numberOfParticles
        (fun i _ => SphSolver2D.forceAt sqrtA s i) s.data.forces } }

/-- `SphSolver2D::writeToFile()`: stream one `"x y"` field per particle into
the `CsvWriter`, flush to the file in append mode, `resetContent()`. -/
def SphSolver2D.writeToFile (s : SphSolver2D) : SphSolver2D :=
  let w := s.data.positions.foldl (fun w p => csvAddString w (posFieldString p)) s.csv
  { s with
    file := csvWriteToFileAppend s.file w.ss,
    csv := { ss := [], valueCount := w.valueCount } }

/-- `SphSolver2D::update()`: density/pressure, forces, integration, boundary
enforcement, then persistence when a file name was configured. -/
def SphSolver2D.update (sqrtA : ℚ → ℚ) (s : SphSolver2D) : SphSolver2D :=
  let s1 := { s with data := SphParticleSystemData2D.computeDensityPressure s.data }
  let s4 := SphSolver2D.enforceBoundary
    (SphSolver2D.integrate (SphSolver2D.computeForces sqrtA s1))
  if s4.fileName ≠ [] then SphSolver2D.writeToFile s4 else s4

/-- `VSphSolver2D::applyExternalForces()`: `velocities[i] += dt * G2D`. -/
def VSphSolver2D.applyExternalForces (s : SphSolver2D) : SphSolver2D :=
  { s with data := { s.data with
      velocities := updIdx s.data.numberOfParticles
        (fun _ v => v + s.timeStepSizeInSeconds • G2D) s.data.velocities } }

/-- `VSphSolver2D::integrate()`: store the current position in
`lastPositions[i]`, then `positions[i] += dt * velocities[i]`. -/
def VSphSolver2D.integrate (s : SphSolver2D) : SphSolver2D :=
  { s with data := { s.data with
      lastPositions := updIdx s.data.numberOfParticles
        (fun i _ => s.data.positions.getD i (0, 0)) s.data.lastPositions,
      positions := updIdx s.data.numberOfParticles
        (fun i p => p + s.timeStepSizeInSeconds • s.data.velocities.getD i (0, 0))
        s.data.positions } }

/-- The `neighorhood->build(positions)` call of `VSphSolver2D::update()`:
rebuild the recorded neighbor lists from the current (predicted) positions;
the recorded distance is the square root of the stored squared distance,
taken by the abstract `sqrtA`. -/
def VSphSolver2D.buildNeighborhood (sqrtA : ℚ → ℚ) (s : SphSolver2D) : SphSolver2D :=
  { s with data := { s.data with
      neighborhood := fun i =>
        (GridNeighborhood2D.build s.grid s.data.positions i).map
          (fun jr => (jr.1, sqrtA jr.2)) } }

/-- The projected position `VSphSolver2D::project()` computes for particle
`i`: starting from the current position, fold over the recorded neighbors
applying, in order, the double-density relaxation displacement, the surface
tension pull, and (for approaching pairs) the viscosity impulse. -/
def VSphSolver2D.projectAt (s : SphSolver2D) (i : ℕ) : Q2 :=
  let pos := fun j => s.data.positions.getD j (0, 0)
  let vel := fun j => s.data.velocities.getD j (0, 0)
  (s.data.neighborhood i).foldl
    (fun proj jr =>
      let j := jr.1
      let r := jr.2
      let dx := pos j - pos i
      let a := 1 - r / s.data.kernelRadius
      let dd := s.timeStepSizeInSecondsSquared *
        ((s.data.pressureVariations.getD i 0 + s.data.pressureVariations.getD j 0) *
            a * a * a * s.data.kernelFactorNorm +
          (s.data.pressures.getD i 0 + s.data.pressures.getD j 0) * a * a *
            s.data.kernelFactor) / 2
      let proj1 := proj - (dd / (r * s.data.mass)) • dx
      let proj2 := proj1 +
        ((s.data.surfaceTension / s.data.mass) * s.data.mass * a * a *
          s.data.kernelFactor) • dx
      let u := dot2 (vel i - vel j) dx
      if 0 < u then
        let u1 := u / r
        proj2 - ((1/2 * s.timeStepSizeInSeconds * a *
          (s.data.linearViscosity * u1 + s.data.quadraticViscosity * u1 * u1)) *
          s.timeStepSizeInSeconds) • dx
      else proj2) (pos i)

/-- `VSphSolver2D::project()`: assign `projectAt` to every particle's
projected position. -/
def VSphSolver2D.project (s : SphSolver2D) : SphSolver2D :=
  { s with data := { s.data with
      projectedPositions := updIdx s.data.numberOfParticles
        (fun i _ => VSphSolver2D.projectAt s i) s.data.projectedPositions } }

/-- `VSphSolver2D::correct()`: commit `positions[i] = projectedPositions[i]`
and reconstruct `velocities[i] = (positions[i] - lastPositions[i]) / dt` with
the committed position. -/
def VSphSolver2D.correct (s : SphSolver2D) : SphSolver2D :=
  { s with data := { s.data with
      positions := updIdx s.data.numberOfParticles
        (fun i _ => s.data.projectedPositions.getD i (0, 0)) s.data.positions,
      velocities := updIdx s.data.numberOfParticles
        (fun i _ => (s.timeStepSizeInSeconds)⁻¹ •
          (s.data.projectedPositions.getD i (0, 0) - s.data.lastPositions.getD i (0, 0)))
        s.data.velocities } }

/-- The `_particleSystemData->computeDensityPressure()` call inside the
viscoelastic update loop, lifted to the solver state. -/
def VSphSolver2D.computeDensityPressureStep (s : SphSolver2D) : SphSolver2D :=
  { s with data := VSphParticleSystemData2D.computeDensityPressure s.data }

/-- One substep of `VSphSolver2D::update()`, in the order of the loop body:
external forces, prediction, neighbor-grid rebuild on the predicted
positions, density/pressure, projection, correction, boundary enforcement. -/
def VSphSolver2D.substep (sqrtA : ℚ → ℚ) (s : SphSolver2D) : SphSolver2D :=
  SphSolver2D.enforceBoundary
    (VSphSolver2D.correct
      (VSphSolver2D.project
        (VSphSolver2D.computeDensityPressureStep
          (VSphSolver2D.buildNeighborhood sqrtA
            (VSphSolver2D.integrate
              (VSphSolver2D.applyExternalForces s))))))

/-- The `for (int i = 0; i < _solverSteps; i++)` loop of
`VSphSolver2D::update()`. -/
def VSphSolver2D.updateLoop (sqrtA : ℚ → ℚ) : ℕ → SphSolver2D → SphSolver2D
  | 0, s => s
  | n + 1, s => VSphSolver2D.updateLoop sqrtA n (VSphSolver2D.substep sqrtA s)

/-- `VSphSolver2D::update()`: run `_solverSteps` substeps, then persist the
positions once when a file name was configured. -/
def VSphSolver2D.update (sqrtA : ℚ → ℚ) (s : SphSolver2D) : SphSolver2D :=
  let s' := VSphSolver2D.updateLoop sqrtA s.solverSteps s
  if s'.fileName ≠ [] then SphSolver2D.writeToFile s' else s'

/-! ## Concrete states used by counterexamples and witnesses -/

/-- A one-particle base-solver state: default data constants, the default
boundary set of the `SphSolver2D` constructor (view 1200×900), one particle
far outside the left boundary plane. -/
def oneParticleSolver : SphSolver2D :=
  { data := { SphParticleSystemData2D.init with
      positions := [(-20, 5)], velocities := [(0, 0)], forces := [(0, 0)],
      densities := [1], pressures := [0], numberOfParticles := 1 },
    boundaries := [(1, 0, 0), (0, 1, 0), (-1, 0, -1200), (0, -1, -900)],
    timeStepSizeInSeconds := 7/10000,
    boundaryDumping := -1/2,
    fileName := [], csv := ⟨[], 0⟩, file := [],
    solverSteps := 10, timeStepSizeInSecondsSquared := 1,
    grid := { width := 100, height := 100, cellSize := 1 } }

/-- A one-particle viscoelastic data state whose recorded neighborhood holds
a single neighbor at distance `1/10`. -/
def oneParticleVData : SphParticleSystemData2D :=
  { VSphParticleSystemData2D.init with
    positions := [(0, 0)], velocities := [(0, 0)], forces := [(0, 0)],
    densities := [0], pressures := [0], lastPositions := [(0, 0)],
    projectedPositions := [(0, 0)], densityVariations := [0],
    pressureVariations := [0], numberOfParticles := 1,
    neighborhood := fun _ => [(0, 1/10)] }

/-- A one-particle classical data state. -/
def oneParticleSData : SphParticleSystemData2D :=
  { SphParticleSystemData2D.init with
    positions := [(0, 0)], densities := [0], pressures := [0],
    numberOfParticles := 1 }

/-! ## Helper lemmas -/

theorem length_updAllFrom (f : ℕ → α → α) (start : ℕ) (l : List α) :
    (updAllFrom f start l).length = l.length := by
  induction l generalizing start with
  | nil => rfl
  | cons x xs ih => simp [updAllFrom, ih]

theorem getD_updAllFrom (f : ℕ → α → α) (start k : ℕ) (l : List α) (d : α) :
    (updAllFrom f start l).getD k d =
      if k < l.length then f (start + k) (l.getD k d) else d := by
  induction l generalizing start k with
  | nil => simp [updAllFrom]
  | cons x xs ih =>
    cases k with
    | zero => simp [updAllFrom]
    | succ k =>
      simp only [updAllFrom, List.getD_cons_succ, List.length_cons, ih]
      have h : start + 1 + k = start + (k + 1) := by omega
      rw [h]
      simp [Nat.succ_lt_succ_iff]

theorem length_updIdx (N : ℕ) (f : ℕ → α → α) (l : List α) :
    (updIdx N f l).length = l.length := length_updAllFrom _ _ _

theorem getD_updIdx (N : ℕ) (f : ℕ → α → α) (l : List α) (k : ℕ) (d : α)
    (hk : k < l.length) (hN : k < N) :
    (updIdx N f l).getD k d = f k (l.getD k d) := by
  rw [updIdx, getD_updAllFrom]
  simp [hk, hN]

theorem getD_updIdx_ge (N : ℕ) (f : ℕ → α → α) (l : List α) (k : ℕ) (d : α)
    (hN : N ≤ k) :
    (updIdx N f l).getD k d = l.getD k d := by
  rw [updIdx, getD_updAllFrom]
  by_cases hk : k < l.length
  · simp [hk, Nat.not_lt.mpr hN]
  · rw [if_neg hk, List.getD_eq_default _ _ (Nat.le_of_not_lt hk)]

/-- A fold accumulating `acc + g x` equals the initial value plus the sum of
the mapped list. -/
theorem foldl_add_eq_sum (g : α → ℚ) (l : List α) (init : ℚ) :
    l.foldl (fun acc x => acc + g x) init = init + (l.map g).sum := by
  induction l generalizing init with
  | nil => simp
  | cons x xs ih => simp [ih, add_assoc]

/-- A fold accumulating a pair of sums equals the pair of mapped sums. -/
theorem foldl_pair_add_eq_sum (g h : α → ℚ) (l : List α) (init : ℚ × ℚ) :
    l.foldl (fun acc x => (acc.1 + g x, acc.2 + h x)) init =
      (init.1 + (l.map g).sum, init.2 + (l.map h).sum) := by
  induction l generalizing init with
  | nil => simp
  | cons x xs ih => simp [ih, add_assoc]

/-- A guarded fold accumulating `acc + g x` when `p x` holds equals the
initial value plus the sum over the filtered list. -/
theorem foldl_add_ite_eq_sum (p : α → Bool) (g : α → ℚ) (l : List α) (init : ℚ) :
    l.foldl (fun acc x => if p x then acc + g x else acc) init =
      init + ((l.filter p).map g).sum := by
  induction l generalizing init with
  | nil => simp
  | cons x xs ih =>
    by_cases hp : p x <;> simp [hp, ih, add_assoc]

/-- A guarded fold over a decidable proposition, as a filtered sum. -/
theorem foldl_add_dite_eq_sum (p : α → Prop) [DecidablePred p] (g : α → ℚ)
    (l : List α) (init : ℚ) :
    l.foldl (fun acc x => if p x then acc + g x else acc) init =
      init + ((l.filter fun x => decide (p x)).map g).sum := by
  induction l generalizing init with
  | nil => simp
  | cons x xs ih =>
    by_cases hp : p x <;> simp [hp, ih, add_assoc]

/-- The accumulator pair of the viscoelastic density pass, as the two
kernel-weighted sums over the recorded neighborhood. -/
theorem densityPairAt_eq (d : SphParticleSystemData2D) (i : ℕ) :
    VSphParticleSystemData2D.densityPairAt d i =
      (((d.neighborhood i).map fun jr =>
          d.mass * (1 - jr.2 / d.kernelRadius) ^ 3 * d.kernelFactor).sum,
       ((d.neighborhood i).map fun jr =>
          d.mass * (1 - jr.2 / d.kernelRadius) ^ 4 * d.kernelFactorNorm).sum) := by
  rw [VSphParticleSystemData2D.densityPairAt,
    foldl_pair_add_eq_sum
      (fun jr : ℕ × ℚ => d.mass * (1 - jr.2 / d.kernelRadius) *
        (1 - jr.2 / d.kernelRadius) * (1 - jr.2 / d.kernelRadius) * d.kernelFactor)
      (fun jr : ℕ × ℚ => d.mass * (1 - jr.2 / d.kernelRadius) *
        (1 - jr.2 / d.kernelRadius) * (1 - jr.2 / d.kernelRadius) *
        (1 - jr.2 / d.kernelRadius) * d.kernelFactorNorm)]
  have e3 : (fun jr : ℕ × ℚ => d.mass * (1 - jr.2 / d.kernelRadius) *
      (1 - jr.2 / d.kernelRadius) * (1 - jr.2 / d.kernelRadius) * d.kernelFactor) =
      fun jr : ℕ × ℚ => d.mass * (1 - jr.2 / d.kernelRadius) ^ 3 * d.kernelFactor :=
    funext fun jr => by ring
  have e4 : (fun jr : ℕ × ℚ => d.mass * (1 - jr.2 / d.kernelRadius) *
      (1 - jr.2 / d.kernelRadius) * (1 - jr.2 / d.kernelRadius) *
      (1 - jr.2 / d.kernelRadius) * d.kernelFactorNorm) =
      fun jr : ℕ × ℚ => d.mass * (1 - jr.2 / d.kernelRadius) ^ 4 * d.kernelFactorNorm :=
    funext fun jr => by ring
  rw [e3, e4]
  simp

/-- The classical density accumulator as a filtered kernel-weighted sum over
all particle indices. -/
theorem densityAt_eq (d : SphParticleSystemData2D) (i : ℕ) :
    SphParticleSystemData2D.densityAt d i =
      (((List.range d.numberOfParticles).filter fun j =>
          decide (sqNorm (d.positions.getD j (0, 0) - d.positions.getD i (0, 0)) <
            d.kernelRadiusSquared)).map fun j =>
        d.mass * SphPoly6Kernel d.kernelRadius
          (d.kernelRadiusSquared -
            sqNorm (d.positions.getD j (0, 0) - d.positions.getD i (0, 0)))).sum := by
  rw [SphParticleSystemData2D.densityAt,
    foldl_add_dite_eq_sum
      (fun j => sqNorm (d.positions.getD j (0, 0) - d.positions.getD i (0, 0)) <
        d.kernelRadiusSquared)
      (fun j => d.mass * SphPoly6Kernel d.kernelRadius
        (d.kernelRadiusSquared -
          sqNorm (d.positions.getD j (0, 0) - d.positions.getD i (0, 0))))]
  rw [zero_add]

/-- The viscoelastic update loop is the iterate of one substep. -/
theorem updateLoop_eq_iterate (sqrtA : ℚ → ℚ) (n : ℕ) (s : SphSolver2D) :
    VSphSolver2D.updateLoop sqrtA n s = (VSphSolver2D.substep sqrtA)^[n] s := by
  induction n generalizing s with
  | zero => rfl
  | succ n ih => rw [VSphSolver2D.updateLoop, ih, Function.iterate_succ_apply]

/-- Substeps never touch the configured output file name. -/
theorem updateLoop_fileName (sqrtA : ℚ → ℚ) (n : ℕ) (s : SphSolver2D) :
    (VSphSolver2D.updateLoop sqrtA n s).fileName = s.fileName := by
  induction n generalizing s with
  | zero => rfl
  | succ n ih => exact (ih _).trans rfl

/-- `fixed10` of a nonnegative value whose rounding is known. -/
theorem fixed10_of_nonneg (q : ℚ) (a : ℕ) (hq : 0 ≤ q)
    (h : Int.floor (q * 10 ^ 10 + 1/2) = (a : ℤ)) :
    fixed10 q = natToChars (a / 10 ^ 10) ++ '.' :: pad10 (a % 10 ^ 10) := by
  simp only [fixed10, abs_of_nonneg hq, h, not_lt.mpr hq, if_neg, if_false,
    Int.toNat_natCast, List.nil_append]

/-- `atofQ` on an unsigned field with known digit decomposition. -/
theorem atofQ_digits (s ip fp : List Char) (a b : ℕ)
    (hsp : s.dropWhile (fun c => c = ' ') = s)
    (hs0 : s.headD ' ' ≠ '-') (hs1 : s.headD ' ' ≠ '+')
    (hip : s.takeWhile Char.isDigit = ip)
    (hrest : (s.dropWhile Char.isDigit).headD ' ' = '.')
    (hfp : (s.dropWhile Char.isDigit).tail.takeWhile Char.isDigit = fp)
    (ha : parseDigits ip = a) (hb : parseDigits fp = b) :
    atofQ s = (a : ℚ) + (b : ℚ) / 10 ^ fp.length := by
  simp only [atofQ, hsp, if_neg hs0, if_neg hs1, atofMag, hip, hrest, if_pos, hfp, ha, hb]


/-! ## Claim theorems -/

/-- C10: `SphSolver2D::enforceBoundary()` modifies only the velocity array:
positions, forces, densities, pressures and the particle count are exactly
unchanged. -/
theorem enforceBoundary_frame (s : SphSolver2D) :
    (SphSolver2D.enforceBoundary s).data.positions = s.data.positions ∧
    (SphSolver2D.enforceBoundary s).data.forces = s.data.forces ∧
    (SphSolver2D.enforceBoundary s).data.densities = s.data.densities ∧
    (SphSolver2D.enforceBoundary s).data.pressures = s.data.pressures ∧
    (SphSolver2D.enforceBoundary s).data.numberOfParticles = s.data.numberOfParticles :=
  ⟨rfl, rfl, rfl, rfl, rfl⟩

/-- C2 counterexample: with the default particle radius 16 and the default
boundary planes, a particle at `(-20, 5)` still has signed distance `-20`
(below `-particleRadius = -16`) to the plane `(1,0,0)` after
`enforceBoundary()` returns: boundary containment is NOT a postcondition of
`enforceBoundary`, which corrects only velocities. -/
theorem enforceBoundary_containment_fails :
    signedDistance
        ((SphSolver2D.enforceBoundary oneParticleSolver).data.positions.getD 0 (0, 0))
        (1, 0, 0) <
      -(SphSolver2D.enforceBoundary oneParticleSolver).data.particleRadius := by
  show signedDistance (oneParticleSolver.data.positions.getD 0 (0, 0)) (1, 0, 0) <
    -oneParticleSolver.data.particleRadius
  norm_num [oneParticleSolver, SphParticleSystemData2D.init, signedDistance]

/-- C2 amended: `enforceBoundary()` never moves a particle: the position
array — and with it the signed distance of every particle to every boundary
plane — is exactly the same after the call as before it; only velocities
receive the boundary correction. -/
theorem enforceBoundary_positions_unchanged (s : SphSolver2D) :
    (SphSolver2D.enforceBoundary s).data.positions = s.data.positions ∧
    ∀ (i : ℕ) (b : ℚ × ℚ × ℚ),
      signedDistance ((SphSolver2D.enforceBoundary s).data.positions.getD i (0, 0)) b =
        signedDistance (s.data.positions.getD i (0, 0)) b :=
  ⟨rfl, fun _ _ => rfl⟩

/-- C1 counterexample: `VSphParticleSystemData2D::addParticle((1,2))` on the
freshly constructed data pushes `(0,0)` — not the particle position — onto
`_projectedPositions`. -/
theorem addParticle_projected_not_position :
    (VSphParticleSystemData2D.addParticle VSphParticleSystemData2D.init
        (1, 2)).projectedPositions ≠ [((1 : ℚ), (2 : ℚ))] := by
  simp only [VSphParticleSystemData2D.addParticle, SphParticleSystemData2D.addParticle,
    VSphParticleSystemData2D.init, SphParticleSystemData2D.init, List.nil_append]
  intro h
  have h0 := List.head_eq_of_cons_eq h
  rw [Prod.ext_iff] at h0
  norm_num at h0

/-- C1 amended: `VSphParticleSystemData2D::addParticle(p)` appends exactly
one entry to every per-particle array and bumps the count; the appended
previous (last) position equals `p` and the appended near-density and
near-pressure entries are zero, but the appended predicted (projected)
position is the zero vector `(0,0)`, not `p`. -/
theorem addParticle_appends (d : SphParticleSystemData2D) (p : Q2) :
    (VSphParticleSystemData2D.addParticle d p).positions = d.positions ++ [p] ∧
    (VSphParticleSystemData2D.addParticle d p).velocities = d.velocities ++ [(0, 0)] ∧
    (VSphParticleSystemData2D.addParticle d p).forces = d.forces ++ [(0, 0)] ∧
    (VSphParticleSystemData2D.addParticle d p).densities = d.densities ++ [0] ∧
    (VSphParticleSystemData2D.addParticle d p).pressures = d.pressures ++ [0] ∧
    (VSphParticleSystemData2D.addParticle d p).projectedPositions =
      d.projectedPositions ++ [(0, 0)] ∧
    (VSphParticleSystemData2D.addParticle d p).densityVariations =
      d.densityVariations ++ [0] ∧
    (VSphParticleSystemData2D.addParticle d p).pressureVariations =
      d.pressureVariations ++ [0] ∧
    (VSphParticleSystemData2D.addParticle d p).lastPositions = d.lastPositions ++ [p] ∧
    (VSphParticleSystemData2D.addParticle d p).numberOfParticles =
      d.numberOfParticles + 1 :=
  ⟨rfl, rfl, rfl, rfl, rfl, rfl, rfl, rfl, rfl, rfl⟩

/-- C9: the recorded neighbor collection of any particle never exceeds
`Neighborhood::MAX_NEIGHBORS = 64` entries; `build` keeps the first 64
in-radius candidates and silently drops the rest (it is a total function —
no error is raised). -/
theorem build_neighbor_cap (g : GridNeighborhood2D) (points : List Q2) (i : ℕ) :
    (GridNeighborhood2D.build g points i).length ≤ Neighborhood.MAX_NEIGHBORS := by
  simp only [GridNeighborhood2D.build]
  exact List.length_take_le Neighborhood.MAX_NEIGHBORS _

/-- C4: after `build` on a grid configured by
`setGridResolution(width, height, kernelRadius)` (cell size = kernel
radius), every recorded neighbor entry `(j, r2)` of particle `i` has `j`
distinct from `i`, stores exactly the squared Euclidean distance between
`points[i]` and `points[j]` (the code stores its square root as the
distance), and satisfies `EPS ≤ r2 ≤ kernelRadius²` — so the recorded
distance `√r2` is at most the kernel radius: no false positives. -/
theorem build_sound (w h : ℤ) (kr : ℚ) (points : List Q2) (i j : ℕ) (r2 : ℚ)
    (hkr : 0 < kr)
    (hmem : (j, r2) ∈ GridNeighborhood2D.build
      (GridNeighborhood2D.setGridResolution w h kr) points i) :
    j ≠ i ∧
    r2 = sqNorm (points.getD j (0, 0) - points.getD i (0, 0)) ∧
    EPS ≤ r2 ∧ r2 ≤ kr ^ 2 ∧ Real.sqrt (r2 : ℝ) ≤ (kr : ℝ) := by
  simp only [GridNeighborhood2D.build] at hmem
  have hmem2 := List.mem_of_mem_take hmem
  rw [List.mem_filterMap] at hmem2
  obtain ⟨a, _, hfa⟩ := hmem2
  split at hfa
  · exact absurd hfa (by simp)
  · rename_i hcond
    rw [Option.some_inj, Prod.mk.injEq] at hfa
    obtain ⟨haj, hr2⟩ := hfa
    subst haj
    push_neg at hcond
    obtain ⟨hEPS, hcs⟩ := hcond
    have hcell : (GridNeighborhood2D.setGridResolution w h kr).cellSize = kr := rfl
    rw [hcell] at hcs
    have hkr2 : r2 ≤ kr ^ 2 := by rw [pow_two, ← hr2]; exact hcs
    have hEPS' : EPS ≤ r2 := hr2 ▸ hEPS
    refine ⟨?_, hr2.symm, hEPS', hkr2, ?_⟩
    · rintro rfl
      rw [sub_self] at hr2
      have h0 : sqNorm 0 = 0 := by simp [sqNorm]
      rw [h0] at hr2
      rw [← hr2] at hEPS'
      norm_num [EPS] at hEPS'
    · have h1 : ((r2 : ℚ) : ℝ) ≤ ((kr : ℚ) : ℝ) ^ 2 := by
        rw [show ((kr : ℚ) : ℝ) ^ 2 = ((kr ^ 2 : ℚ) : ℝ) by push_cast; ring]
        exact_mod_cast hkr2
      calc Real.sqrt (r2 : ℝ) ≤ Real.sqrt (((kr : ℚ) : ℝ) ^ 2) := Real.sqrt_le_sqrt h1
        _ = ((kr : ℚ) : ℝ) := Real.sqrt_sq (by exact_mod_cast hkr.le)

/-- Witness for C4 at a concrete grid: view 6×6, kernel radius 1, two points
a quarter-cell apart in the same interior cell; the grid records `(1, 1/16)`
as a neighbor of particle 0 and the soundness conclusions hold there. -/
theorem build_sound_witness :
    (0 : ℚ) < 1 ∧
    ((1 : ℕ), (1/16 : ℚ)) ∈ GridNeighborhood2D.build
      (GridNeighborhood2D.setGridResolution 6 6 1)
      [((3 : ℚ)/2, (3 : ℚ)/2), (7/4, 3/2)] 0 ∧
    ((1 : ℕ) ≠ 0 ∧
      (1/16 : ℚ) = sqNorm ([((3 : ℚ)/2, (3 : ℚ)/2), (7/4, 3/2)].getD 1 (0, 0) -
        [((3 : ℚ)/2, (3 : ℚ)/2), (7/4, 3/2)].getD 0 (0, 0)) ∧
      EPS ≤ (1/16 : ℚ) ∧ (1/16 : ℚ) ≤ (1 : ℚ) ^ 2 ∧
      Real.sqrt ((1/16 : ℚ) : ℝ) ≤ ((1 : ℚ) : ℝ)) := by
  have hc : GridNeighborhood2D.build (GridNeighborhood2D.setGridResolution 6 6 1)
      [((3 : ℚ)/2, (3 : ℚ)/2), (7/4, 3/2)] 0 = [(1, 1/16)] := by
    norm_num [GridNeighborhood2D.build, GridNeighborhood2D.setGridResolution,
      GridNeighborhood2D.cellIndex, GridNeighborhood2D.insertPoints,
      GridNeighborhood2D.cellScan, qtrunc, sqNorm, EPS, Prod.mk_sub_mk,
      List.filterMap_cons, Neighborhood.MAX_NEIGHBORS]
  have hmem : ((1 : ℕ), (1/16 : ℚ)) ∈ GridNeighborhood2D.build
      (GridNeighborhood2D.setGridResolution 6 6 1)
      [((3 : ℚ)/2, (3 : ℚ)/2), (7/4, 3/2)] 0 := by
    rw [hc]; exact List.mem_singleton.mpr rfl
  exact ⟨by norm_num, hmem,
    build_sound 6 6 1 [((3 : ℚ)/2, (3 : ℚ)/2), (7/4, 3/2)] 0 1 (1/16)
      (by norm_num) hmem⟩

/-- C5: after `VSphParticleSystemData2D::computeDensityPressure()`, with
`a = 1 - r/kernelRadius` for each recorded neighbor at distance `r`:
density[i] is the sum of `mass·a³·kernelFactor`, near-density
(`densityVariations[i]`) the sum of `mass·a⁴·kernelFactorNorm`,
`pressures[i] = stiffness·(density[i] - mass·ELASTIC_REST_DENSITY)` and
`pressureVariations[i] = stiffnessAtProximity · densityVariations[i]`. -/
theorem computeDensityPressure_viscoelastic_spec (d : SphParticleSystemData2D) (i : ℕ)
    (hi : i < d.numberOfParticles)
    (h1 : i < d.densities.length) (h2 : i < d.densityVariations.length)
    (h3 : i < d.pressures.length) (h4 : i < d.pressureVariations.length) :
    (VSphParticleSystemData2D.computeDensityPressure d).densities.getD i 0 =
      ((d.neighborhood i).map fun jr =>
        d.mass * (1 - jr.2 / d.kernelRadius) ^ 3 * d.kernelFactor).sum ∧
    (VSphParticleSystemData2D.computeDensityPressure d).densityVariations.getD i 0 =
      ((d.neighborhood i).map fun jr =>
        d.mass * (1 - jr.2 / d.kernelRadius) ^ 4 * d.kernelFactorNorm).sum ∧
    (VSphParticleSystemData2D.computeDensityPressure d).pressures.getD i 0 =
      d.stiffness *
        ((VSphParticleSystemData2D.computeDensityPressure d).densities.getD i 0 -
          d.mass * ELASTIC_REST_DENSITY) ∧
    (VSphParticleSystemData2D.computeDensityPressure d).pressureVariations.getD i 0 =
      d.stiffnessAtProximity *
        ((VSphParticleSystemData2D.computeDensityPressure d).densityVariations.getD i 0) := by
  have hd : (VSphParticleSystemData2D.computeDensityPressure d).densities.getD i 0 =
      (VSphParticleSystemData2D.densityPairAt d i).1 :=
    getD_updIdx _ _ _ _ _ h1 hi
  have hdv : (VSphParticleSystemData2D.computeDensityPressure d).densityVariations.getD i 0 =
      (VSphParticleSystemData2D.densityPairAt d i).2 :=
    getD_updIdx _ _ _ _ _ h2 hi
  have hp : (VSphParticleSystemData2D.computeDensityPressure d).pressures.getD i 0 =
      d.stiffness * ((VSphParticleSystemData2D.densityPairAt d i).1 -
        d.mass * ELASTIC_REST_DENSITY) :=
    getD_updIdx _ _ _ _ _ h3 hi
  have hpv : (VSphParticleSystemData2D.computeDensityPressure d).pressureVariations.getD i 0 =
      d.stiffnessAtProximity * (VSphParticleSystemData2D.densityPairAt d i).2 :=
    getD_updIdx _ _ _ _ _ h4 hi
  rw [hd, hdv, hp, hpv, densityPairAt_eq]
  exact ⟨rfl, rfl, rfl, rfl⟩

/-- Witness for C5 at a concrete one-particle viscoelastic data state. -/
theorem computeDensityPressure_viscoelastic_spec_witness :
    0 < oneParticleVData.numberOfParticles ∧
    0 < oneParticleVData.densities.length ∧
    0 < oneParticleVData.densityVariations.length ∧
    0 < oneParticleVData.pressures.length ∧
    0 < oneParticleVData.pressureVariations.length ∧
    ((VSphParticleSystemData2D.computeDensityPressure oneParticleVData).densities.getD 0 0 =
      ((oneParticleVData.neighborhood 0).map fun jr =>
        oneParticleVData.mass * (1 - jr.2 / oneParticleVData.kernelRadius) ^ 3 *
          oneParticleVData.kernelFactor).sum ∧
    (VSphParticleSystemData2D.computeDensityPressure
        oneParticleVData).densityVariations.getD 0 0 =
      ((oneParticleVData.neighborhood 0).map fun jr =>
        oneParticleVData.mass * (1 - jr.2 / oneParticleVData.kernelRadius) ^ 4 *
          oneParticleVData.kernelFactorNorm).sum ∧
    (VSphParticleSystemData2D.computeDensityPressure oneParticleVData).pressures.getD 0 0 =
      oneParticleVData.stiffness *
        ((VSphParticleSystemData2D.computeDensityPressure
            oneParticleVData).densities.getD 0 0 -
          oneParticleVData.mass * ELASTIC_REST_DENSITY) ∧
    (VSphParticleSystemData2D.computeDensityPressure
        oneParticleVData).pressureVariations.getD 0 0 =
      oneParticleVData.stiffnessAtProximity *
        ((VSphParticleSystemData2D.computeDensityPressure
            oneParticleVData).densityVariations.getD 0 0)) :=
  ⟨by decide, by decide, by decide, by decide, by decide,
    computeDensityPressure_viscoelastic_spec oneParticleVData 0 (by decide) (by decide)
      (by decide) (by decide) (by decide)⟩

/-- C8: after `SphParticleSystemData2D::computeDensityPressure()`,
density[i] is the all-pairs sum of `mass * poly6(kernelRadius² - r²)` over
the ordered pairs with `r² < kernelRadius²`, and
`pressures[i] = GAS_CONSTANT * (density[i] - REST_DENSITY)` with no
clamping — in particular the pressure is negative whenever the density is
below the rest density. -/
theorem computeDensityPressure_classical_spec (d : SphParticleSystemData2D) (i : ℕ)
    (hi : i < d.numberOfParticles)
    (h1 : i < d.densities.length) (h2 : i < d.pressures.length)
    (hk : d.kernelRadiusSquared = d.kernelRadius ^ 2) :
    (SphParticleSystemData2D.computeDensityPressure d).densities.getD i 0 =
      (((List.range d.numberOfParticles).filter fun j =>
          decide (sqNorm (d.positions.getD j (0, 0) - d.positions.getD i (0, 0)) <
            d.kernelRadius ^ 2)).map fun j =>
        d.mass * SphPoly6Kernel d.kernelRadius
          (d.kernelRadius ^ 2 -
            sqNorm (d.positions.getD j (0, 0) - d.positions.getD i (0, 0)))).sum ∧
    (SphParticleSystemData2D.computeDensityPressure d).pressures.getD i 0 =
      GAS_CONSTANT *
        ((SphParticleSystemData2D.computeDensityPressure d).densities.getD i 0 -
          REST_DENSITY) ∧
    ((SphParticleSystemData2D.computeDensityPressure d).densities.getD i 0 <
        REST_DENSITY →
      (SphParticleSystemData2D.computeDensityPressure d).pressures.getD i 0 < 0) := by
  have hd : (SphParticleSystemData2D.computeDensityPressure d).densities.getD i 0 =
      SphParticleSystemData2D.densityAt d i :=
    getD_updIdx _ _ _ _ _ h1 hi
  have hp : (SphParticleSystemData2D.computeDensityPressure d).pressures.getD i 0 =
      GAS_CONSTANT * (SphParticleSystemData2D.densityAt d i - REST_DENSITY) :=
    getD_updIdx _ _ _ _ _ h2 hi
  refine ⟨?_, ?_, ?_⟩
  · rw [hd, densityAt_eq, hk]
  · rw [hp, hd]
  · intro hlt
    rw [hd] at hlt
    rw [hp]
    exact mul_neg_of_pos_of_neg (by norm_num [GAS_CONSTANT]) (by linarith)

/-- Witness for C8 at a concrete one-particle classical data state. -/
theorem computeDensityPressure_classical_spec_witness :
    0 < oneParticleSData.numberOfParticles ∧
    0 < oneParticleSData.densities.length ∧
    0 < oneParticleSData.pressures.length ∧
    oneParticleSData.kernelRadiusSquared = oneParticleSData.kernelRadius ^ 2 ∧
    ((SphParticleSystemData2D.computeDensityPressure oneParticleSData).densities.getD 0 0 =
      (((List.range oneParticleSData.numberOfParticles).filter fun j =>
          decide (sqNorm (oneParticleSData.positions.getD j (0, 0) -
            oneParticleSData.positions.getD 0 (0, 0)) <
            oneParticleSData.kernelRadius ^ 2)).map fun j =>
        oneParticleSData.mass * SphPoly6Kernel oneParticleSData.kernelRadius
          (oneParticleSData.kernelRadius ^ 2 -
            sqNorm (oneParticleSData.positions.getD j (0, 0) -
              oneParticleSData.positions.getD 0 (0, 0)))).sum ∧
    (SphParticleSystemData2D.computeDensityPressure oneParticleSData).pressures.getD 0 0 =
      GAS_CONSTANT *
        ((SphParticleSystemData2D.computeDensityPressure
            oneParticleSData).densities.getD 0 0 - REST_DENSITY) ∧
    ((SphParticleSystemData2D.computeDensityPressure oneParticleSData).densities.getD 0 0 <
        REST_DENSITY →
      (SphParticleSystemData2D.computeDensityPressure
          oneParticleSData).pressures.getD 0 0 < 0)) := by
  have hk : oneParticleSData.kernelRadiusSquared = oneParticleSData.kernelRadius ^ 2 := by
    norm_num [oneParticleSData, SphParticleSystemData2D.init]
  exact ⟨by decide, by decide, by decide, hk,
    computeDensityPressure_classical_spec oneParticleSData 0 (by decide) (by decide)
      (by decide) hk⟩

/-- C7: `SphSolver2D::update()` performs, strictly in order,
`computeDensityPressure`, `computeForces`, `integrate`, `enforceBoundary`,
then persists only when a file name was configured; and `integrate` is
semi-implicit Euler: the velocity gains `(force/density)·dt` first, and the
position then advances by `dt` times the already-updated velocity. -/
theorem update_classical_spec (sqrtA : ℚ → ℚ) (s : SphSolver2D) (i : ℕ) :
    SphSolver2D.update sqrtA s =
      (fun s4 => if s4.fileName ≠ [] then SphSolver2D.writeToFile s4 else s4)
        (SphSolver2D.enforceBoundary
          (SphSolver2D.integrate
            (SphSolver2D.computeForces sqrtA
              { s with data := SphParticleSystemData2D.computeDensityPressure s.data }))) ∧
    (i < s.data.numberOfParticles → i < s.data.velocities.length →
      i < s.data.positions.length →
      (SphSolver2D.integrate s).data.velocities.getD i (0, 0) =
        s.data.velocities.getD i (0, 0) + s.timeStepSizeInSeconds •
          ((s.data.densities.getD i 0)⁻¹ • s.data.forces.getD i (0, 0)) ∧
      (SphSolver2D.integrate s).data.positions.getD i (0, 0) =
        s.data.positions.getD i (0, 0) + s.timeStepSizeInSeconds •
          ((SphSolver2D.integrate s).data.velocities.getD i (0, 0))) := by
  constructor
  · rfl
  · intro hN hv hp
    have hvel : (SphSolver2D.integrate s).data.velocities.getD i (0, 0) =
        s.data.velocities.getD i (0, 0) + s.timeStepSizeInSeconds •
          ((s.data.densities.getD i 0)⁻¹ • s.data.forces.getD i (0, 0)) :=
      getD_updIdx _ _ _ _ _ hv hN
    have hpos : (SphSolver2D.integrate s).data.positions.getD i (0, 0) =
        s.data.positions.getD i (0, 0) + s.timeStepSizeInSeconds •
          (s.data.velocities.getD i (0, 0) + s.timeStepSizeInSeconds •
            ((s.data.densities.getD i 0)⁻¹ • s.data.forces.getD i (0, 0))) :=
      getD_updIdx _ _ _ _ _ hp hN
    exact ⟨hvel, by rw [hpos, hvel]⟩

/-- Witness for C7 at a concrete one-particle solver state. -/
theorem update_classical_spec_witness :
    0 < oneParticleSolver.data.numberOfParticles ∧
    0 < oneParticleSolver.data.velocities.length ∧
    0 < oneParticleSolver.data.positions.length ∧
    SphSolver2D.update (fun q => q) oneParticleSolver =
      (fun s4 => if s4.fileName ≠ [] then SphSolver2D.writeToFile s4 else s4)
        (SphSolver2D.enforceBoundary
          (SphSolver2D.integrate
            (SphSolver2D.computeForces (fun q => q)
              { oneParticleSolver with
                data := SphParticleSystemData2D.computeDensityPressure
                  oneParticleSolver.data }))) ∧
    (SphSolver2D.integrate oneParticleSolver).data.velocities.getD 0 (0, 0) =
      oneParticleSolver.data.velocities.getD 0 (0, 0) +
        oneParticleSolver.timeStepSizeInSeconds •
          ((oneParticleSolver.data.densities.getD 0 0)⁻¹ •
            oneParticleSolver.data.forces.getD 0 (0, 0)) ∧
    (SphSolver2D.integrate oneParticleSolver).data.positions.getD 0 (0, 0) =
      oneParticleSolver.data.positions.getD 0 (0, 0) +
        oneParticleSolver.timeStepSizeInSeconds •
          ((SphSolver2D.integrate oneParticleSolver).data.velocities.getD 0 (0, 0)) := by
  obtain ⟨horder, hint⟩ := update_classical_spec (fun q => q) oneParticleSolver 0
  obtain ⟨hv, hp⟩ := hint (by decide) (by decide) (by decide)
  exact ⟨by decide, by decide, by decide, horder, hv, hp⟩

/-- C6: `VSphSolver2D::update()` runs exactly `solverSteps` substeps — 10
with the default configuration — each substep strictly in the order external
forces, prediction (`integrate`), neighbor-grid rebuild on the freshly
predicted positions, `computeDensityPressure`, `project`, `correct`,
`enforceBoundary`; afterwards the positions are persisted at most once, and
only when an output file name was configured (the file name itself is never
changed by the substeps). -/
theorem update_viscoelastic_spec (sqrtA : ℚ → ℚ) (s : SphSolver2D)
    (h : s.solverSteps = 10) :
    VSphSolver2D.update sqrtA s =
      (fun t => if t.fileName ≠ [] then SphSolver2D.writeToFile t else t)
        ((fun t => SphSolver2D.enforceBoundary
          (VSphSolver2D.correct
            (VSphSolver2D.project
              (VSphSolver2D.computeDensityPressureStep
                (VSphSolver2D.buildNeighborhood sqrtA
                  (VSphSolver2D.integrate
                    (VSphSolver2D.applyExternalForces t)))))))^[10] s) ∧
    (VSphSolver2D.updateLoop sqrtA s.solverSteps s).fileName = s.fileName := by
  refine ⟨?_, updateLoop_fileName sqrtA s.solverSteps s⟩
  show (let s' := VSphSolver2D.updateLoop sqrtA s.solverSteps s;
    if s'.fileName ≠ [] then SphSolver2D.writeToFile s' else s') = _
  rw [h, updateLoop_eq_iterate]
  rfl

/-- Witness for C6 at a concrete solver state with the default substep
count. -/
theorem update_viscoelastic_spec_witness :
    oneParticleSolver.solverSteps = 10 ∧
    (VSphSolver2D.update (fun q => q) oneParticleSolver =
      (fun t => if t.fileName ≠ [] then SphSolver2D.writeToFile t else t)
        ((fun t => SphSolver2D.enforceBoundary
          (VSphSolver2D.correct
            (VSphSolver2D.project
              (VSphSolver2D.computeDensityPressureStep
                (VSphSolver2D.buildNeighborhood (fun q => q)
                  (VSphSolver2D.integrate
                    (VSphSolver2D.applyExternalForces t)))))))^[10] oneParticleSolver) ∧
    (VSphSolver2D.updateLoop (fun q => q) oneParticleSolver.solverSteps
        oneParticleSolver).fileName = oneParticleSolver.fileName) :=
  ⟨rfl, update_viscoelastic_spec (fun q => q) oneParticleSolver rfl⟩

/-- C3: the persistence round trip loses precision.  Writing the two frames
`[(0.5, 0.1234567899)], [(0.5, 0.1234567899)]` through the persistence path
and reading the file back reproduces frame 1 exactly, but in frame 2 the
last field comes back as `0.123456789`: `CsvWriter::writeToFile(…, true)`
strips the first AND last character of every appended frame
(`s.substr(1, s.size() - 2)` — the first character is the spurious leading
separator left by the stale `valueCount`, but the last character is a live
digit).  The error `9·10⁻¹⁰` exceeds 10-significant-digit precision
(one ulp of `0.1234567899` at 10 significant digits is `10⁻¹⁰`). -/
theorem roundTrip_loses_last_digit :
    readFrames (writeFrames
        [[((1 : ℚ)/2, 1234567899/10^10)], [((1 : ℚ)/2, 1234567899/10^10)]]) =
      [[((1 : ℚ)/2, 1234567899/10^10)], [((1 : ℚ)/2, 123456789/10^9)]] ∧
    |(123456789/10^9 : ℚ) - 1234567899/10^10| = 9/10^10 ∧
    (9 : ℚ)/10^10 > 1/10^10 := by
  have hhalf : fixed10 ((1 : ℚ)/2) = "0.5000000000".data := by
    rw [fixed10_of_nonneg ((1 : ℚ)/2) 5000000000 (by norm_num) (by norm_num)]
    decide
  have hy : fixed10 ((1234567899 : ℚ)/10^10) = "0.1234567899".data := by
    rw [fixed10_of_nonneg ((1234567899 : ℚ)/10^10) 1234567899 (by norm_num) (by norm_num)]
    decide
  have hfield : posFieldString ((1 : ℚ)/2, (1234567899 : ℚ)/10^10) =
      "0.5000000000 0.1234567899".data := by
    show fixed10 ((1 : ℚ)/2) ++ ' ' :: fixed10 ((1234567899 : ℚ)/10^10) = _
    rw [hhalf, hy]
    decide
  have hW : writeFrames [[((1 : ℚ)/2, 1234567899/10^10)],
        [((1 : ℚ)/2, 1234567899/10^10)]] =
      "0.5000000000 0.1234567899\n0.5000000000 0.123456789".data := by
    rw [writeFrames, List.foldl_cons, List.foldl_cons, List.foldl_nil]
    simp only [writeFrame, List.foldl_cons, List.foldl_nil, csvAddString, hfield]
    decide
  have ha1 : atofQ "0.5000000000".data = (1 : ℚ)/2 := by
    rw [atofQ_digits "0.5000000000".data ['0'] "5000000000".data 0 5000000000
      (by decide) (by decide) (by decide) (by decide) (by decide) (by decide)
      (by decide) (by decide)]
    norm_num
  have ha2 : atofQ "0.1234567899".data = (1234567899 : ℚ)/10^10 := by
    rw [atofQ_digits "0.1234567899".data ['0'] "1234567899".data 0 1234567899
      (by decide) (by decide) (by decide) (by decide) (by decide) (by decide)
      (by decide) (by decide)]
    norm_num
  have ha3 : atofQ "0.123456789".data = (123456789 : ℚ)/10^9 := by
    rw [atofQ_digits "0.123456789".data ['0'] "123456789".data 0 123456789
      (by decide) (by decide) (by decide) (by decide) (by decide) (by decide)
      (by decide) (by decide)]
    norm_num
  have hg1 : get2DVector "0.5000000000 0.1234567899".data =
      (((1 : ℚ)/2), (1234567899 : ℚ)/10^10) := by
    simp only [get2DVector]
    rw [show splitOnC ' ' "0.5000000000 0.1234567899".data =
      ["0.5000000000".data, "0.1234567899".data] from by decide]
    simp only [List.getD_cons_zero, List.getD_cons_succ]
    rw [ha1, ha2]
  have hg2 : get2DVector "0.5000000000 0.123456789".data =
      (((1 : ℚ)/2), (123456789 : ℚ)/10^9) := by
    simp only [get2DVector]
    rw [show splitOnC ' ' "0.5000000000 0.123456789".data =
      ["0.5000000000".data, "0.123456789".data] from by decide]
    simp only [List.getD_cons_zero, List.getD_cons_succ]
    rw [ha1, ha3]
  refine ⟨?_, ?_, by norm_num⟩
  · rw [hW, readFrames]
    rw [show splitOnC '\n' "0.5000000000 0.1234567899\n0.5000000000 0.123456789".data =
      ["0.5000000000 0.1234567899".data, "0.5000000000 0.123456789".data] from by decide]
    rw [List.map_cons, List.map_cons, List.map_nil]
    rw [show splitOnC ';' "0.5000000000 0.1234567899".data =
      ["0.5000000000 0.1234567899".data] from by decide]
    rw [show splitOnC ';' "0.5000000000 0.123456789".data =
      ["0.5000000000 0.123456789".data] from by decide]
    rw [List.map_cons, List.map_nil, List.map_cons, List.map_nil]
    rw [hg1, hg2]
  · rw [abs_of_nonpos (by norm_num)]
    norm_num
